import Mathlib

/-!
Shallow embedding of the PostGIS raster band adapter
(`postgisrasterrasterband.cpp`) and verification of its specification.

C doubles are modelled as rationals (the operations used on the read path
are +, -, *, /, fabs and comparisons); C `(int)` casts are modelled as
truncation toward zero; C strings are lists of characters.
-/

/-- GDAL canonical pixel data types used by the driver. -/
inductive GDALDataType where
  | GDT_Unknown
  | GDT_Byte
  | GDT_Int16
  | GDT_UInt16
  | GDT_Int32
  | GDT_UInt32
  | GDT_Float32
  | GDT_Float64
  deriving DecidableEq, Repr

/-- ASCII upper-casing of a single character, as `strncasecmp` folds case. -/
def toUpperChar (c : Char) : Char :=
  if 0x61 ≤ c.toNat ∧ c.toNat ≤ 0x7a then Char.ofNat (c.toNat - 0x20) else c

/-- CPL `EQUALN(a, b, n)`: the first `n` characters of `a` and `b` compare
equal case-insensitively (`strncasecmp(a,b,n) == 0`).  Every call in the
source passes a literal of length exactly `n` as `b`, so a string shorter
than `n` never matches. -/
def EQUALN (a b : List Char) (n : ℕ) : Bool :=
  ((a.take n).map toUpperChar) == ((b.take n).map toUpperChar)

/-- `PostGISRasterRasterBand::TranslateDataType`, translated clause for
clause from the source: a cascade of case-insensitive prefix tests. -/
def TranslateDataType (pszDataType : List Char) : GDALDataType :=
  if EQUALN pszDataType ("1BB".toList) 3 || EQUALN pszDataType ("2BUI".toList) 4 ||
     EQUALN pszDataType ("4BUI".toList) 4 || EQUALN pszDataType ("8BUI".toList) 4 ||
     EQUALN pszDataType ("8BSI".toList) 4 then
    GDALDataType.GDT_Byte
  else if EQUALN pszDataType ("16BSI".toList) 5 then GDALDataType.GDT_Int16
  else if EQUALN pszDataType ("16BUI".toList) 5 then GDALDataType.GDT_UInt16
  else if EQUALN pszDataType ("32BSI".toList) 5 then GDALDataType.GDT_Int32
  else if EQUALN pszDataType ("32BUI".toList) 5 then GDALDataType.GDT_UInt32
  else if EQUALN pszDataType ("32BF".toList) 4 then GDALDataType.GDT_Float32
  else if EQUALN pszDataType ("64BF".toList) 4 then GDALDataType.GDT_Float64
  else GDALDataType.GDT_Unknown

/-- The eleven pixel-type tags recognized by the store. -/
def recognizedTags : List (List Char) :=
  ["1BB".toList, "2BUI".toList, "4BUI".toList, "8BUI".toList, "8BSI".toList,
   "16BSI".toList, "16BUI".toList, "32BSI".toList, "32BUI".toList,
   "32BF".toList, "64BF".toList]

/-- Disjunction of exactly the prefix tests performed by
`TranslateDataType`, in source order. -/
def matchesKnownTag (s : List Char) : Bool :=
  EQUALN s ("1BB".toList) 3 || EQUALN s ("2BUI".toList) 4 ||
  EQUALN s ("4BUI".toList) 4 || EQUALN s ("8BUI".toList) 4 ||
  EQUALN s ("8BSI".toList) 4 || EQUALN s ("16BSI".toList) 5 ||
  EQUALN s ("16BUI".toList) 5 || EQUALN s ("32BSI".toList) 5 ||
  EQUALN s ("32BUI".toList) 5 || EQUALN s ("32BF".toList) 4 ||
  EQUALN s ("64BF".toList) 4

/-- C `(int)` cast of a real value: truncation toward zero. -/
def truncToInt (q : ℚ) : ℤ :=
  if 0 ≤ q then ⌊q⌋ else ⌈q⌉

/-- The geometry columns fetched for one tile row. -/
structure TileGeom where
  nTileWidth : ℤ
  nTileHeight : ℤ
  dfTileScaleX : ℚ
  dfTileScaleY : ℚ
  dfTileUpperLeftX : ℚ
  dfTileUpperLeftY : ℚ
  deriving DecidableEq, Repr

/-- The six window quantities computed per tile in `IRasterIO`. -/
structure TileWindows where
  nSrcXOff : ℤ
  nSrcYOff : ℤ
  nDstXOff : ℤ
  nDstYOff : ℤ
  nDstXSize : ℤ
  nDstYSize : ℤ
  deriving DecidableEq, Repr

/-- Source/destination window computation for one tile, translated from
`IRasterIO` (the block computing `nSrcXOff` .. `nDstYSize`).  `xmin` and
`ymax` are the dataset's world-space upper-left, `dsScaleX` is
`adfTransform[1]` and `dsScaleY` is `adfTransform[5]`. -/
def computeTileWindows (xmin ymax dsScaleX dsScaleY : ℚ) (tg : TileGeom) :
    TileWindows :=
  let sx : ℤ := if tg.dfTileUpperLeftX < xmin then
      truncToInt ((xmin - tg.dfTileUpperLeftX) / tg.dfTileScaleX + 1/2)
    else 0
  let dx : ℤ := if tg.dfTileUpperLeftX < xmin then 0
    else truncToInt (1/2 + (tg.dfTileUpperLeftX - xmin) / dsScaleX)
  let sy : ℤ := if ymax < tg.dfTileUpperLeftY then
      truncToInt ((tg.dfTileUpperLeftY - ymax) / |tg.dfTileScaleY| + 1/2)
    else 0
  let dy : ℤ := if ymax < tg.dfTileUpperLeftY then 0
    else truncToInt (1/2 + (ymax - tg.dfTileUpperLeftY) / |dsScaleY|)
  let dxs : ℤ := truncToInt (1/2 + (tg.nTileWidth : ℚ) * tg.dfTileScaleX / dsScaleX)
  let dys : ℤ := truncToInt (1/2 + (tg.nTileHeight : ℚ) * |tg.dfTileScaleY| / |dsScaleY|)
  { nSrcXOff := sx, nSrcYOff := sy, nDstXOff := dx, nDstYOff := dy,
    nDstXSize := dxs, nDstYSize := dys }

/-- The argument tuple passed to `VRTAddSimpleSource` for one tile. -/
structure SimpleSourceWindow where
  nSrcXOff : ℤ
  nSrcYOff : ℤ
  nSrcXSize : ℤ
  nSrcYSize : ℤ
  nDstXOff : ℤ
  nDstYOff : ℤ
  nDstXSize : ℤ
  nDstYSize : ℤ
  deriving DecidableEq, Repr

/-- The simple source actually installed for a tile: the computed offsets
are passed through unchanged, and the source window size is the full tile
width and height (`VRTAddSimpleSource(..., nSrcXOff, nSrcYOff, nTileWidth,
nTileHeight, nDstXOff, nDstYOff, nDstXSize, nDstYSize, ...)`). -/
def installedSimpleSource (xmin ymax dsScaleX dsScaleY : ℚ) (tg : TileGeom) :
    SimpleSourceWindow :=
  let w := computeTileWindows xmin ymax dsScaleX dsScaleY tg
  { nSrcXOff := w.nSrcXOff, nSrcYOff := w.nSrcYOff,
    nSrcXSize := tg.nTileWidth, nSrcYSize := tg.nTileHeight,
    nDstXOff := w.nDstXOff, nDstYOff := w.nDstYOff,
    nDstXSize := w.nDstXSize, nDstYSize := w.nDstYSize }

/-- The spec's rounding: add 0.5, truncate. -/
def roundHalfUp (q : ℚ) : ℤ := truncToInt (q + 1/2)

/-- The dataset affine transform, `adfTransform[0..5]` in source order:
top-left x, west-east resolution, rotation 1, top-left y, rotation 2,
north-south resolution. -/
structure GeoTransform where
  dfTopLeftX : ℚ
  dfWeRes : ℚ
  dfRot1 : ℚ
  dfTopLeftY : ℚ
  dfRot2 : ℚ
  dfNsRes : ℚ
  deriving DecidableEq, Repr

/-- The affine transform applied to a point `(px, py)`:
`(T[0] + px*T[1] + py*T[2], T[3] + px*T[4] + py*T[5])`. -/
def applyGeoTransform (t : GeoTransform) (px py : ℚ) : ℚ × ℚ :=
  (t.dfTopLeftX + px * t.dfWeRes + py * t.dfRot1,
   t.dfTopLeftY + px * t.dfRot2 + py * t.dfNsRes)

/-- The closed polygon sent in the spatial intersection query, translated
from `IRasterIO`: the code sets `ulx = nXOff`, `uly = nYOff`,
`lrx = nXOff + nXSize * nBandDataSize`, `lry = nYOff + nYSize *
nBandDataSize` (scaling the window sizes by the pixel byte size), applies
the transform to the four corners, and repeats the first vertex as the
fifth. -/
def projWinPolygon (t : GeoTransform)
    (nXOff nYOff nXSize nYSize nBandDataSize : ℤ) : List (ℚ × ℚ) :=
  let ulx : ℚ := (nXOff : ℚ)
  let uly : ℚ := (nYOff : ℚ)
  let lrx : ℚ := (nXOff : ℚ) + (nXSize : ℚ) * (nBandDataSize : ℚ)
  let lry : ℚ := (nYOff : ℚ) + (nYSize : ℚ) * (nBandDataSize : ℚ)
  [applyGeoTransform t ulx uly,
   applyGeoTransform t lrx uly,
   applyGeoTransform t lrx lry,
   applyGeoTransform t ulx lry,
   applyGeoTransform t ulx uly]

/-- The pentagon the spec prescribes (stated from the spec's words, for
comparison with `projWinPolygon`): the transform applied to the raw
pixel-space corners ul, ur, lr, ll, ul of the window, with no byte-size
scaling. -/
def specWindowPolygon (t : GeoTransform)
    (nXOff nYOff nXSize nYSize : ℤ) : List (ℚ × ℚ) :=
  let ulx : ℚ := (nXOff : ℚ)
  let uly : ℚ := (nYOff : ℚ)
  let lrx : ℚ := (nXOff : ℚ) + (nXSize : ℚ)
  let lry : ℚ := (nYOff : ℚ) + (nYSize : ℚ)
  [applyGeoTransform t ulx uly,
   applyGeoTransform t lrx uly,
   applyGeoTransform t lrx lry,
   applyGeoTransform t ulx lry,
   applyGeoTransform t ulx uly]

/-- Sort direction of an ORDER BY term. -/
inductive SortDir where
  | asc
  | desc
  deriving DecidableEq, Repr

/-- The observable shape of the tile-enumeration query: the intersection
polygon and the two ORDER BY directions (upper-left y first, then
upper-left x). -/
structure TileQuery where
  polygon : List (ℚ × ℚ)
  orderYDir : SortDir
  orderXDir : SortDir
  deriving DecidableEq, Repr

/-- Which path ends up serving a windowed read call. -/
inductive ServedBy where
  | rejectedWrite
  | overview
  | level0
  deriving DecidableEq, Repr

/-- CPL error classes raised on the read path. -/
inductive CPLErrorKind where
  | noError
  | notSupported
  | appDefined
  deriving DecidableEq, Repr

/-- Observable outcome of one `IRasterIO` call: whether it returned
`CE_None`, the error class raised, the serving path, the tile-enumeration
query issued to the store (if any), and the caller's buffer after the
call. -/
structure ReadOutcome where
  succeeded : Bool
  errorKind : CPLErrorKind
  servedBy : ServedBy
  tileQuery : Option TileQuery
  buffer : List ℤ
  deriving DecidableEq, Repr

/-- Environment of one `IRasterIO` call: its arguments, the dataset state
consulted, and the responses of the external collaborators (the overview
read of the host framework, the store, and the host's VRT composition
primitive). -/
structure ReadEnv where
  eRWFlagIsWrite : Bool
  nXOff : ℤ
  nYOff : ℤ
  nXSize : ℤ
  nYSize : ℤ
  nBufXSize : ℤ
  nBufYSize : ℤ
  nBandDataSize : ℤ
  adfTransform : GeoTransform
  nSrid : ℤ
  overviewCount : ℤ
  overviewReadResult : Option (List ℤ)
  queryResult : Option (List TileGeom)
  vrtReadResult : Bool × List ℤ
  deriving DecidableEq, Repr

/-- The level-0 read path of `IRasterIO`: build the polygon and ORDER BY
directions, issue the query, and return according to the result: transport
failure raises `CPLE_AppDefined` and returns `CE_Failure`; zero tuples
return `CE_None` without touching the buffer; otherwise the final VRT
`RasterIO` produces the buffer and status. -/
def level0Read (env : ReadEnv) (buf : List ℤ) : ReadOutcome :=
  let q : TileQuery :=
    { polygon := projWinPolygon env.adfTransform env.nXOff env.nYOff
        env.nXSize env.nYSize env.nBandDataSize,
      orderYDir := if env.nSrid = -1 then SortDir.asc else SortDir.desc,
      orderXDir := SortDir.asc }
  match env.queryResult with
  | none =>
      { succeeded := false, errorKind := CPLErrorKind.appDefined,
        servedBy := ServedBy.level0, tileQuery := some q, buffer := buf }
  | some [] =>
      { succeeded := true, errorKind := CPLErrorKind.noError,
        servedBy := ServedBy.level0, tileQuery := some q, buffer := buf }
  | some (_ :: _) =>
      { succeeded := env.vrtReadResult.1, errorKind := CPLErrorKind.noError,
        servedBy := ServedBy.level0, tileQuery := some q,
        buffer := env.vrtReadResult.2 }

/-- `PostGISRasterRasterBand::IRasterIO`, control flow translated from the
source: a write call is rejected with `CPLE_NotSupported` before anything
else; then, if the buffer is smaller than the window on either axis and
the band has overviews, `OverviewRasterIO` is tried and its success
returns `CE_None`; in every remaining case the level-0 path runs. -/
def IRasterIOModel (env : ReadEnv) (buf : List ℤ) : ReadOutcome :=
  if env.eRWFlagIsWrite then
    { succeeded := false, errorKind := CPLErrorKind.notSupported,
      servedBy := ServedBy.rejectedWrite, tileQuery := none, buffer := buf }
  else if (env.nBufXSize < env.nXSize ∨ env.nBufYSize < env.nYSize) ∧
      0 < env.overviewCount then
    match env.overviewReadResult with
    | some newBuf =>
        { succeeded := true, errorKind := CPLErrorKind.noError,
          servedBy := ServedBy.overview, tileQuery := none, buffer := newBuf }
    | none => level0Read env buf
  else
    level0Read env buf

/-- The band state fields set by the constructor that the accessors
consult. -/
structure BandState where
  nBand : ℤ
  nOverviewFactor : ℤ
  nRasterXSize : ℤ
  nRasterYSize : ℤ
  nOverviewCount : ℤ
  deriving DecidableEq, Repr

/-- The overview branch of the `PostGISRasterRasterBand` constructor
(`nOverviewFactor != 0`): no overviews of its own, raster sizes
`(int) floor((double) base / factor)`. -/
def mkOverviewBandState (baseXSize baseYSize nBandArg nFactor : ℤ) : BandState :=
  { nBand := nBandArg, nOverviewFactor := nFactor,
    nRasterXSize := ⌊(baseXSize : ℚ) / (nFactor : ℚ)⌋,
    nRasterYSize := ⌊(baseYSize : ℚ) / (nFactor : ℚ)⌋,
    nOverviewCount := 0 }

/-- `PostGISRasterRasterBand::GetBand`: `(nOverviewFactor) ? 0 : nBand`. -/
def GetBand (b : BandState) : ℤ :=
  if b.nOverviewFactor ≠ 0 then 0 else b.nBand

/-- `PostGISRasterRasterBand::GetDataset` returns NULL exactly for
overview bands: `(nOverviewFactor) ? NULL : poDS`. -/
def GetDatasetIsNull (b : BandState) : Bool :=
  b.nOverviewFactor ≠ 0

/-- `PostGISRasterRasterBand::GetOverviewCount`:
`(nOverviewFactor) ? 0 : nOverviewCount`. -/
def GetOverviewCount (b : BandState) : ℤ :=
  if b.nOverviewFactor ≠ 0 then 0 else b.nOverviewCount

/-- The CPL `MIN(a,b)` macro: `(a < b) ? a : b`. -/
def cplMIN (a b : ℤ) : ℤ :=
  if a < b then a else b

/-- The block-size selection of the constructor: with regular blocking the
given block sizes are kept; otherwise
`MIN(nRasterXSize, DEFAULT_BLOCK_X_SIZE)` by
`MIN(nRasterYSize, DEFAULT_BLOCK_Y_SIZE)`.  The default constants live in
the header `postgisraster.h`, which is not part of this translation unit,
so they are parameters here. -/
def constructorBlockSize (bRegularBlocking : Bool)
    (nBlockXSizeArg nBlockYSizeArg nRasterXSize nRasterYSize
     defaultBlockXSize defaultBlockYSize : ℤ) : ℤ × ℤ :=
  if bRegularBlocking then (nBlockXSizeArg, nBlockYSizeArg)
  else (cplMIN nRasterXSize defaultBlockXSize,
        cplMIN nRasterYSize defaultBlockYSize)

/-- An identity-like transform with unit x scale and negative unit y
scale, used as concrete input. -/
def tIdentity : GeoTransform := ⟨0, 1, 0, 0, 0, -1⟩

/-- C5 counterexample: "8BUIX" is not one of the eleven recognized tags,
yet `TranslateDataType` classifies it as the 8-bit unsigned type instead
of failing with the unknown-pixel-type result, because the source compares
only the first four characters. -/
theorem C5_prefix_match_counterexample :
    TranslateDataType ("8BUIX".toList) = GDALDataType.GDT_Byte ∧
    ("8BUIX".toList) ∉ recognizedTags ∧
    TranslateDataType ("8BUIX".toList) ≠ GDALDataType.GDT_Unknown := by
  refine ⟨by decide, by decide, by decide⟩

/-- C5 (amended): each of the eleven recognized tags classifies to its
expected canonical type, the byte-or-narrower tags including "8BSI" to the
8-bit unsigned type; and every tag that does not begin, case-insensitively,
with one of the eleven tags fails with the unknown-pixel-type result. -/
theorem C5_pixel_type_classifier :
    (TranslateDataType ("1BB".toList) = GDALDataType.GDT_Byte ∧
     TranslateDataType ("2BUI".toList) = GDALDataType.GDT_Byte ∧
     TranslateDataType ("4BUI".toList) = GDALDataType.GDT_Byte ∧
     TranslateDataType ("8BUI".toList) = GDALDataType.GDT_Byte ∧
     TranslateDataType ("8BSI".toList) = GDALDataType.GDT_Byte ∧
     TranslateDataType ("16BSI".toList) = GDALDataType.GDT_Int16 ∧
     TranslateDataType ("16BUI".toList) = GDALDataType.GDT_UInt16 ∧
     TranslateDataType ("32BSI".toList) = GDALDataType.GDT_Int32 ∧
     TranslateDataType ("32BUI".toList) = GDALDataType.GDT_UInt32 ∧
     TranslateDataType ("32BF".toList) = GDALDataType.GDT_Float32 ∧
     TranslateDataType ("64BF".toList) = GDALDataType.GDT_Float64) ∧
    ∀ s : List Char, matchesKnownTag s = false →
      TranslateDataType s = GDALDataType.GDT_Unknown := by
  refine ⟨by decide, ?_⟩
  intro s h
  simp only [matchesKnownTag, Bool.or_eq_false_iff] at h
  unfold TranslateDataType
  simp_all

/-- Witness for C5: a concrete tag matching no recognized tag is
classified as unknown. -/
theorem C5_pixel_type_classifier_witness :
    matchesKnownTag ("FOO".toList) = false ∧
    TranslateDataType ("FOO".toList) = GDALDataType.GDT_Unknown :=
  ⟨by decide, C5_pixel_type_classifier.2 ("FOO".toList) (by decide)⟩

/-- C1: the polygon sent in the spatial intersection query is NOT the
transform of the raw pixel-space window corners: the source scales the
window sizes by the pixel byte size first (`lrx = nXOff + nXSize *
nBandDataSize`).  At transform (0,1,0,0,0,-1), window (0,0,4,4) and a
2-byte canonical type, the code sends the pentagon through (8,-8) where
the spec requires (4,-4); the polygon is still closed (first vertex =
fifth). -/
theorem C1_polygon_byte_size_bug :
    projWinPolygon tIdentity 0 0 4 4 2 =
      [(0, 0), (8, 0), (8, -8), (0, -8), (0, 0)] ∧
    specWindowPolygon tIdentity 0 0 4 4 =
      [(0, 0), (4, 0), (4, -4), (0, -4), (0, 0)] ∧
    projWinPolygon tIdentity 0 0 4 4 2 ≠ specWindowPolygon tIdentity 0 0 4 4 ∧
    projWinPolygon tIdentity 0 0 4 4 1 = specWindowPolygon tIdentity 0 0 4 4 := by
  refine ⟨?_, ?_, ?_, ?_⟩ <;>
    norm_num [projWinPolygon, specWindowPolygon, applyGeoTransform, tIdentity]

/-- C2: the per-tile source and destination window quantities computed by
`IRasterIO` are exactly the spec's formulas: branch on the tile's
upper-left against the dataset's upper-left, divide by the tile scale
(source side) or the dataset scale (destination side), absolute values on
the y axis, every rounding being add-0.5-then-truncate. -/
theorem C2_per_tile_window_formulas (xmin ymax dsScaleX dsScaleY : ℚ)
    (tg : TileGeom) :
    (computeTileWindows xmin ymax dsScaleX dsScaleY tg).nSrcXOff =
      (if tg.dfTileUpperLeftX < xmin
        then roundHalfUp ((xmin - tg.dfTileUpperLeftX) / tg.dfTileScaleX)
        else 0) ∧
    (computeTileWindows xmin ymax dsScaleX dsScaleY tg).nDstXOff =
      (if tg.dfTileUpperLeftX < xmin then 0
        else roundHalfUp ((tg.dfTileUpperLeftX - xmin) / dsScaleX)) ∧
    (computeTileWindows xmin ymax dsScaleX dsScaleY tg).nSrcYOff =
      (if ymax < tg.dfTileUpperLeftY
        then roundHalfUp ((tg.dfTileUpperLeftY - ymax) / |tg.dfTileScaleY|)
        else 0) ∧
    (computeTileWindows xmin ymax dsScaleX dsScaleY tg).nDstYOff =
      (if ymax < tg.dfTileUpperLeftY then 0
        else roundHalfUp ((ymax - tg.dfTileUpperLeftY) / |dsScaleY|)) ∧
    (computeTileWindows xmin ymax dsScaleX dsScaleY tg).nDstXSize =
      roundHalfUp ((tg.nTileWidth : ℚ) * tg.dfTileScaleX / dsScaleX) ∧
    (computeTileWindows xmin ymax dsScaleX dsScaleY tg).nDstYSize =
      roundHalfUp ((tg.nTileHeight : ℚ) * |tg.dfTileScaleY| / |dsScaleY|) := by
  unfold computeTileWindows roundHalfUp
  refine ⟨?_, ?_, ?_, ?_, ?_, ?_⟩ <;> dsimp only [] <;>
    (try split_ifs) <;> (first | rfl | (congr 1; ring))

/-- A truncation-toward-zero of a nonnegative rational is nonnegative. -/
lemma truncToInt_nonneg (q : ℚ) (h : 0 ≤ q) : 0 ≤ truncToInt q := by
  unfold truncToInt
  rw [if_pos h]
  exact Int.floor_nonneg.mpr h

/-- A tile whose x geometry is descending (negative tile x scale) and
starts left of the dataset origin. -/
def tgNegScale : TileGeom := ⟨4, 4, -1, -1, -4, 0⟩

/-- C3 counterexample: for the tile `tgNegScale` on a dataset with
`xmin = 0`, `ymax = 0`, scales (1, -1), the computed source x offset is
-3, and the simple source is installed with that negative offset unclamped
and with the full tile width as source size (nothing is reduced). -/
theorem C3_negative_offset_installed :
    (computeTileWindows 0 0 1 (-1) tgNegScale).nSrcXOff = -3 ∧
    (installedSimpleSource 0 0 1 (-1) tgNegScale).nSrcXOff = -3 ∧
    (installedSimpleSource 0 0 1 (-1) tgNegScale).nSrcXOff < 0 ∧
    (installedSimpleSource 0 0 1 (-1) tgNegScale).nSrcXSize =
      tgNegScale.nTileWidth := by
  have hx : (computeTileWindows 0 0 1 (-1) tgNegScale).nSrcXOff = -3 := by
    unfold computeTileWindows tgNegScale
    norm_num [truncToInt]
    rw [Int.ceil_eq_iff]
    norm_num
  refine ⟨hx, hx, by rw [show (installedSimpleSource 0 0 1 (-1) tgNegScale).nSrcXOff =
    (computeTileWindows 0 0 1 (-1) tgNegScale).nSrcXOff from rfl, hx]; norm_num, rfl⟩

/-- C3 (amended): the code performs no clamping: the offsets installed are
exactly the computed values and the installed source window size is the
full tile width and height.  Whenever the tile x scale and the dataset x
scale are positive, all four installed offsets are nonnegative (the y
offsets through the absolute values of the y scales). -/
theorem C3_installed_offsets_nonneg (xmin ymax dsScaleX dsScaleY : ℚ)
    (tg : TileGeom) (htsx : 0 < tg.dfTileScaleX) (hdsx : 0 < dsScaleX) :
    0 ≤ (installedSimpleSource xmin ymax dsScaleX dsScaleY tg).nSrcXOff ∧
    0 ≤ (installedSimpleSource xmin ymax dsScaleX dsScaleY tg).nSrcYOff ∧
    0 ≤ (installedSimpleSource xmin ymax dsScaleX dsScaleY tg).nDstXOff ∧
    0 ≤ (installedSimpleSource xmin ymax dsScaleX dsScaleY tg).nDstYOff := by
  unfold installedSimpleSource computeTileWindows
  refine ⟨?_, ?_, ?_, ?_⟩ <;> dsimp only [] <;> split_ifs with h
  · refine truncToInt_nonneg _ ?_
    have h1 : (0:ℚ) ≤ xmin - tg.dfTileUpperLeftX := by linarith
    have h2 := div_nonneg h1 htsx.le
    linarith
  · exact le_refl 0
  · refine truncToInt_nonneg _ ?_
    have h1 : (0:ℚ) ≤ tg.dfTileUpperLeftY - ymax := by linarith
    have h2 := div_nonneg h1 (abs_nonneg tg.dfTileScaleY)
    linarith
  · exact le_refl 0
  · exact le_refl 0
  · refine truncToInt_nonneg _ ?_
    have h1 : (0:ℚ) ≤ tg.dfTileUpperLeftX - xmin := by
      push_neg at h
      linarith
    have h2 := div_nonneg h1 hdsx.le
    linarith
  · exact le_refl 0
  · refine truncToInt_nonneg _ ?_
    have h1 : (0:ℚ) ≤ ymax - tg.dfTileUpperLeftY := by
      push_neg at h
      linarith
    have h2 := div_nonneg h1 (abs_nonneg dsScaleY)
    linarith

/-- A tile with ascending x geometry right and below the dataset origin. -/
def tgPosScale : TileGeom := ⟨2, 2, 1, -1, 3, -5⟩

/-- Witness for C3: at a concrete tile with positive x scales all four
installed offsets are nonnegative. -/
theorem C3_installed_offsets_nonneg_witness :
    0 ≤ (installedSimpleSource 0 0 1 (-1) tgPosScale).nSrcXOff ∧
    0 ≤ (installedSimpleSource 0 0 1 (-1) tgPosScale).nSrcYOff ∧
    0 ≤ (installedSimpleSource 0 0 1 (-1) tgPosScale).nDstXOff ∧
    0 ≤ (installedSimpleSource 0 0 1 (-1) tgPosScale).nDstYOff :=
  C3_installed_offsets_nonneg 0 0 1 (-1) tgPosScale
    (by show (0:ℚ) < 1; norm_num) (by norm_num)

/-- The level-0 path with an empty tile set succeeds and leaves the
buffer untouched. -/
lemma level0Read_empty (env : ReadEnv) (buf : List ℤ)
    (hq : env.queryResult = some []) :
    (level0Read env buf).succeeded = true ∧ (level0Read env buf).buffer = buf := by
  unfold level0Read
  rw [hq]
  exact ⟨rfl, rfl⟩

/-- The tile-enumeration query issued by the level-0 path: the projected
window polygon, y ordered ascending exactly for SRID -1, x ascending. -/
lemma level0Read_tileQuery (env : ReadEnv) (buf : List ℤ) :
    (level0Read env buf).tileQuery = some
      { polygon := projWinPolygon env.adfTransform env.nXOff env.nYOff
          env.nXSize env.nYSize env.nBandDataSize,
        orderYDir := if env.nSrid = -1 then SortDir.asc else SortDir.desc,
        orderXDir := SortDir.asc } := by
  unfold level0Read
  rcases hq : env.queryResult with _ | ⟨_ | ⟨t, ts⟩⟩ <;> simp [hq]

/-- An environment in which the request is decimating, the band has an
overview, but the overview read fails; the store then reports no tiles. -/
def envOverviewFails : ReadEnv :=
  { eRWFlagIsWrite := false, nXOff := 0, nYOff := 0, nXSize := 4, nYSize := 4,
    nBufXSize := 2, nBufYSize := 2, nBandDataSize := 1,
    adfTransform := tIdentity, nSrid := -1, overviewCount := 1,
    overviewReadResult := none, queryResult := some [],
    vrtReadResult := (true, []) }

/-- C4 counterexample: a read with `nBufXSize < nXSize` and a positive
overview count is NOT necessarily satisfied by an overview band: when
`OverviewRasterIO` does not return `CE_None`, the call falls through to
the level-0 path. -/
theorem C4_fallthrough_counterexample :
    (envOverviewFails.nBufXSize < envOverviewFails.nXSize ∨
      envOverviewFails.nBufYSize < envOverviewFails.nYSize) ∧
    0 < envOverviewFails.overviewCount ∧
    envOverviewFails.eRWFlagIsWrite = false ∧
    (IRasterIOModel envOverviewFails []).servedBy = ServedBy.level0 ∧
    (IRasterIOModel envOverviewFails []).servedBy ≠ ServedBy.overview := by
  refine ⟨Or.inl (by decide), by decide, rfl, ?_, ?_⟩ <;>
    simp [IRasterIOModel, level0Read, envOverviewFails]

/-- C4 (amended): when the buffer is smaller than the window on either
axis and the band has overviews, the overview read path is tried first,
and whenever it succeeds the call is satisfied by it (the level-0 path is
not used and the call returns success with the overview's buffer). -/
theorem C4_overview_delegation (env : ReadEnv) (buf newBuf : List ℤ)
    (hw : env.eRWFlagIsWrite = false)
    (hc : (env.nBufXSize < env.nXSize ∨ env.nBufYSize < env.nYSize) ∧
      0 < env.overviewCount)
    (ho : env.overviewReadResult = some newBuf) :
    (IRasterIOModel env buf).servedBy = ServedBy.overview ∧
    (IRasterIOModel env buf).succeeded = true ∧
    (IRasterIOModel env buf).buffer = newBuf := by
  unfold IRasterIOModel
  rw [hw, ho]
  simp [hc]

/-- An environment as `envOverviewFails` but whose overview read
succeeds, producing the buffer [7]. -/
def envOverviewOk : ReadEnv :=
  { eRWFlagIsWrite := false, nXOff := 0, nYOff := 0, nXSize := 4, nYSize := 4,
    nBufXSize := 2, nBufYSize := 2, nBandDataSize := 1,
    adfTransform := tIdentity, nSrid := -1, overviewCount := 1,
    overviewReadResult := some [7], queryResult := some [],
    vrtReadResult := (true, []) }

/-- Witness for C4: a concrete decimating read with a succeeding overview
read is served by the overview path. -/
theorem C4_overview_delegation_witness :
    (IRasterIOModel envOverviewOk []).servedBy = ServedBy.overview ∧
    (IRasterIOModel envOverviewOk []).succeeded = true ∧
    (IRasterIOModel envOverviewOk []).buffer = [7] :=
  C4_overview_delegation envOverviewOk [] [7] rfl
    ⟨Or.inl (by decide), by decide⟩ rfl

/-- C6: a read whose tile-enumeration query returns zero rows returns
success and leaves the caller's buffer exactly as it was.  The overview
hypothesis states that the call was not already satisfied by an overview
(otherwise no tile query is issued at all). -/
theorem C6_empty_result_noop (env : ReadEnv) (buf : List ℤ)
    (hw : env.eRWFlagIsWrite = false)
    (hq : env.queryResult = some [])
    (ho : env.overviewReadResult = none ∨
      ¬((env.nBufXSize < env.nXSize ∨ env.nBufYSize < env.nYSize) ∧
        0 < env.overviewCount)) :
    (IRasterIOModel env buf).succeeded = true ∧
    (IRasterIOModel env buf).buffer = buf := by
  have hlev := level0Read_empty env buf hq
  unfold IRasterIOModel
  rw [hw]
  simp only [Bool.false_eq_true, if_false]
  rcases ho with ho | ho
  · rw [ho]
    split_ifs <;> exact hlev
  · rw [if_neg ho]
    exact hlev

/-- An environment with no overviews whose query returns zero rows. -/
def envEmptyResult : ReadEnv :=
  { eRWFlagIsWrite := false, nXOff := 0, nYOff := 0, nXSize := 4, nYSize := 4,
    nBufXSize := 4, nBufYSize := 4, nBandDataSize := 1,
    adfTransform := tIdentity, nSrid := -1, overviewCount := 0,
    overviewReadResult := none, queryResult := some [],
    vrtReadResult := (true, []) }

/-- Witness for C6: a concrete zero-row read succeeds and keeps the
pre-call buffer [9, 9]. -/
theorem C6_empty_result_noop_witness :
    (IRasterIOModel envEmptyResult [9, 9]).succeeded = true ∧
    (IRasterIOModel envEmptyResult [9, 9]).buffer = [9, 9] :=
  C6_empty_result_noop envEmptyResult [9, 9] rfl rfl (Or.inl rfl)

/-- C8: every write call returns `CE_Failure` with `CPLE_NotSupported`,
issues no query to the store, and leaves the buffer untouched. -/
theorem C8_write_refused (env : ReadEnv) (buf : List ℤ)
    (hw : env.eRWFlagIsWrite = true) :
    (IRasterIOModel env buf).succeeded = false ∧
    (IRasterIOModel env buf).errorKind = CPLErrorKind.notSupported ∧
    (IRasterIOModel env buf).tileQuery = none ∧
    (IRasterIOModel env buf).buffer = buf := by
  unfold IRasterIOModel
  rw [hw]
  exact ⟨rfl, rfl, rfl, rfl⟩

/-- A write call environment. -/
def envWrite : ReadEnv :=
  { eRWFlagIsWrite := true, nXOff := 0, nYOff := 0, nXSize := 4, nYSize := 4,
    nBufXSize := 4, nBufYSize := 4, nBandDataSize := 1,
    adfTransform := tIdentity, nSrid := -1, overviewCount := 0,
    overviewReadResult := none, queryResult := some [],
    vrtReadResult := (true, []) }

/-- Witness for C8: a concrete write call is refused with no query and an
unchanged buffer. -/
theorem C8_write_refused_witness :
    (IRasterIOModel envWrite [3]).succeeded = false ∧
    (IRasterIOModel envWrite [3]).errorKind = CPLErrorKind.notSupported ∧
    (IRasterIOModel envWrite [3]).tileQuery = none ∧
    (IRasterIOModel envWrite [3]).buffer = [3] :=
  C8_write_refused envWrite [3] rfl

/-- C7: whenever a read issues the tile-enumeration query, its ORDER BY
on upper-left y is ascending exactly when the dataset SRID is -1 and
descending for every other SRID, and its ORDER BY on upper-left x is
ascending in both cases. -/
theorem C7_order_by_directions (env : ReadEnv) (buf : List ℤ) (q : TileQuery)
    (hq : (IRasterIOModel env buf).tileQuery = some q) :
    q.orderXDir = SortDir.asc ∧
    (env.nSrid = -1 → q.orderYDir = SortDir.asc) ∧
    (env.nSrid ≠ -1 → q.orderYDir = SortDir.desc) := by
  have hform : q.orderYDir = (if env.nSrid = -1 then SortDir.asc else SortDir.desc) ∧
      q.orderXDir = SortDir.asc := by
    unfold IRasterIOModel at hq
    by_cases hw : env.eRWFlagIsWrite = true
    · rw [if_pos hw] at hq
      simp at hq
    · rw [if_neg hw] at hq
      by_cases hc : (env.nBufXSize < env.nXSize ∨ env.nBufYSize < env.nYSize) ∧
          0 < env.overviewCount
      · rw [if_pos hc] at hq
        rcases ho : env.overviewReadResult with _ | nb <;> rw [ho] at hq
        · rw [level0Read_tileQuery env buf] at hq
          rw [Option.some_inj] at hq
          rw [← hq]
          exact ⟨rfl, rfl⟩
        · simp at hq
      · rw [if_neg hc] at hq
        rw [level0Read_tileQuery env buf] at hq
        rw [Option.some_inj] at hq
        rw [← hq]
        exact ⟨rfl, rfl⟩
  refine ⟨hform.2, ?_, ?_⟩ <;> intro hs <;> rw [hform.1]
  · rw [if_pos hs]
  · rw [if_neg hs]

/-- A plain full-resolution read on a dataset with SRID -1 whose query
returns no tiles, under the all-zero transform. -/
def envSridUnknown : ReadEnv :=
  { eRWFlagIsWrite := false, nXOff := 0, nYOff := 0, nXSize := 4, nYSize := 4,
    nBufXSize := 4, nBufYSize := 4, nBandDataSize := 1,
    adfTransform := ⟨0, 0, 0, 0, 0, 0⟩, nSrid := -1, overviewCount := 0,
    overviewReadResult := none, queryResult := some [],
    vrtReadResult := (true, []) }

/-- The query issued by `envSridUnknown`. -/
def sridUnknownQuery : TileQuery :=
  { polygon := [(0, 0), (0, 0), (0, 0), (0, 0), (0, 0)],
    orderYDir := SortDir.asc, orderXDir := SortDir.asc }

/-- Witness for C7: the concrete SRID -1 read issues a query ordered
ascending on both axes. -/
theorem C7_order_by_directions_witness :
    sridUnknownQuery.orderXDir = SortDir.asc ∧
    (envSridUnknown.nSrid = -1 → sridUnknownQuery.orderYDir = SortDir.asc) ∧
    (envSridUnknown.nSrid ≠ -1 → sridUnknownQuery.orderYDir = SortDir.desc) :=
  C7_order_by_directions envSridUnknown [] sridUnknownQuery
    (by norm_num [IRasterIOModel, level0Read, envSridUnknown, sridUnknownQuery,
      projWinPolygon, applyGeoTransform])

/-- C9: an overview band (positive decimation factor) reports band index
zero and a null owning dataset to the host, reports zero overviews of its
own, and its raster dimensions are the floor of the base dimensions
divided by the factor. -/
theorem C9_overview_band_reports (baseXSize baseYSize nBandArg nFactor : ℤ)
    (hf : 0 < nFactor) :
    GetBand (mkOverviewBandState baseXSize baseYSize nBandArg nFactor) = 0 ∧
    GetDatasetIsNull (mkOverviewBandState baseXSize baseYSize nBandArg nFactor) =
      true ∧
    GetOverviewCount (mkOverviewBandState baseXSize baseYSize nBandArg nFactor) =
      0 ∧
    (mkOverviewBandState baseXSize baseYSize nBandArg nFactor).nRasterXSize =
      baseXSize / nFactor ∧
    (mkOverviewBandState baseXSize baseYSize nBandArg nFactor).nRasterYSize =
      baseYSize / nFactor := by
  have hne : nFactor ≠ 0 := ne_of_gt hf
  have hcast : ((nFactor.toNat : ℕ) : ℚ) = (nFactor : ℚ) := by
    exact_mod_cast congrArg (fun z : ℤ => (z : ℚ)) (Int.toNat_of_nonneg hf.le)
  have hdivx : (⌊(baseXSize : ℚ) / (nFactor : ℚ)⌋ : ℤ) = baseXSize / nFactor := by
    rw [← hcast, Rat.floor_intCast_div_natCast, Int.toNat_of_nonneg hf.le]
  have hdivy : (⌊(baseYSize : ℚ) / (nFactor : ℚ)⌋ : ℤ) = baseYSize / nFactor := by
    rw [← hcast, Rat.floor_intCast_div_natCast, Int.toNat_of_nonneg hf.le]
  refine ⟨?_, ?_, ?_, hdivx, hdivy⟩
  · unfold GetBand mkOverviewBandState
    rw [if_pos hne]
  · unfold GetDatasetIsNull mkOverviewBandState
    simp [hne]
  · unfold GetOverviewCount mkOverviewBandState
    rw [if_pos hne]

/-- Witness for C9: the factor-2 overview of a 101 x 100 base reports
band 0, a null dataset, no overviews and dimensions 50 x 50. -/
theorem C9_overview_band_reports_witness :
    GetBand (mkOverviewBandState 101 100 3 2) = 0 ∧
    GetDatasetIsNull (mkOverviewBandState 101 100 3 2) = true ∧
    GetOverviewCount (mkOverviewBandState 101 100 3 2) = 0 ∧
    (mkOverviewBandState 101 100 3 2).nRasterXSize = 101 / 2 ∧
    (mkOverviewBandState 101 100 3 2).nRasterYSize = 100 / 2 :=
  C9_overview_band_reports 101 100 3 2 (by norm_num)

/-- C10: for a band on a dataset without regular blocking the natural
block size is the minimum of the raster size and the default block size on
each axis, so a block never exceeds the raster. -/
theorem C10_block_size_clamped (bRegularBlocking : Bool)
    (nBlockXSizeArg nBlockYSizeArg nRasterXSize nRasterYSize
     defaultBlockXSize defaultBlockYSize : ℤ)
    (hreg : bRegularBlocking = false) :
    constructorBlockSize bRegularBlocking nBlockXSizeArg nBlockYSizeArg
      nRasterXSize nRasterYSize defaultBlockXSize defaultBlockYSize =
      (min nRasterXSize defaultBlockXSize, min nRasterYSize defaultBlockYSize) ∧
    (constructorBlockSize bRegularBlocking nBlockXSizeArg nBlockYSizeArg
      nRasterXSize nRasterYSize defaultBlockXSize defaultBlockYSize).1 ≤
      nRasterXSize ∧
    (constructorBlockSize bRegularBlocking nBlockXSizeArg nBlockYSizeArg
      nRasterXSize nRasterYSize defaultBlockXSize defaultBlockYSize).2 ≤
      nRasterYSize := by
  have hmin : ∀ a b : ℤ, cplMIN a b = min a b := by
    intro a b
    unfold cplMIN
    rw [min_def]
    split_ifs with h1 h2 h2 <;> omega
  rw [hreg]
  unfold constructorBlockSize
  simp only [Bool.false_eq_true, if_false, hmin]
  exact ⟨trivial, min_le_left _ _, min_le_left _ _⟩

/-- Witness for C10: a 10 x 7 raster with defaults 64 x 8 gets block size
10 x 7, within the raster. -/
theorem C10_block_size_clamped_witness :
    constructorBlockSize false 0 0 10 7 64 8 = (min 10 64, min 7 8) ∧
    (constructorBlockSize false 0 0 10 7 64 8).1 ≤ 10 ∧
    (constructorBlockSize false 0 0 10 7 64 8).2 ≤ 7 :=
  C10_block_size_clamped false 0 0 10 7 64 8 rfl
